import Mathlib

/-!
Verification of the client-lookup engine of the Telegram bot
(`bot_telegram_polling.py`): key normalization, client-number extraction,
schema discovery, index build and lookup with its fallback chain, the
row LRU cache, the message-addressing gate and the authorization check.

Python strings are modelled as Lean `String`; "digit" means an ASCII
decimal digit; spreadsheet cells are strings.  Remote reads performed by
`load_index`/`get_client_data` are modelled by a `Remote` environment and
the calls they make are recorded in a trace.
-/

namespace Bot

/-- Model of `GoogleSheetsManager._normalize_phone` (bot_telegram_polling.py:423-428):
keep only digit characters, then strip leading zeros; empty input or no
digits yield the empty string. -/
def normalize_phone (raw : String) : String :=
  if raw = "" then ""
  else
    let digits := raw.data.filter Char.isDigit
    if digits = [] then "" else String.mk (digits.dropWhile (fun c => c == '0'))

/-- Maximal runs of consecutive digit characters, in order; this is what
`re.findall(r"(\d+)", text)` returns.  `acc` holds the current run,
reversed. -/
def digitRunsAux (acc : List Char) : List Char → List (List Char)
  | [] => if acc = [] then [] else [acc.reverse]
  | c :: rest =>
    if c.isDigit then digitRunsAux (c :: acc) rest
    else if acc = [] then digitRunsAux [] rest
    else acc.reverse :: digitRunsAux [] rest

def digitRuns (s : List Char) : List (List Char) := digitRunsAux [] s

/-- Model of `TelegramBot._extract_client_number` (bot_telegram_polling.py:786-793):
the first run of consecutive digits whose length is at least
`minDigits` (`self.min_client_digits`, default 3), else `""`. -/
def extract_client_number (minDigits : Nat) (text : String) : String :=
  if text = "" then ""
  else
    match (digitRuns text.data).find? (fun m => decide (minDigits ≤ m.length)) with
    | some m => String.mk m
    | none => ""

/-- The search key `handle_message` passes to the lookup
(bot_telegram_polling.py:1063-1074): `normalized_for_search =
normalize_fn(self._extract_client_number(message_to_process))`. -/
def search_key (minDigits : Nat) (residual : String) : String :=
  normalize_phone (extract_client_number minDigits residual)



/-- Python `str.lower()` on a list of characters. -/
def py_lower (s : List Char) : List Char := s.map Char.toLower

/-- Python `str.strip()` on a list of characters: drop leading and
trailing whitespace. -/
def py_strip (s : List Char) : List Char :=
  ((s.dropWhile Char.isWhitespace).reverse.dropWhile Char.isWhitespace).reverse

/-- Python `needle in hay` on strings: `needle` occurs as a contiguous
substring of `hay`. -/
def is_substring : List Char → List Char → Bool
  | needle, [] => needle.isEmpty
  | needle, c :: rest => needle.isPrefixOf (c :: rest) || is_substring needle rest

/-- The keyword list of `GoogleSheetsManager._find_client_column`
(bot_telegram_polling.py:411). -/
def client_keywords : List String := ["client", "number", "id", "code"]

/-- Test `any(keyword in header.lower().strip() for keyword in client_keywords)`
(bot_telegram_polling.py:413): substring containment against the
lower-cased, trimmed header. -/
def headerMatches (header : String) : Bool :=
  client_keywords.any fun keyword => is_substring keyword.data (py_strip (py_lower header.data))

/-- The scan loop of `_find_client_column` (bot_telegram_polling.py:412-419),
carrying the index `i` of the current header; falls back to column 0. -/
def find_client_column_from (i : Nat) : List String → Nat
  | [] => 0
  | header :: rest => if headerMatches header then i else find_client_column_from (i + 1) rest

/-- Model of `GoogleSheetsManager._find_client_column` (bot_telegram_polling.py:395-421)
restricted to its pure part: header row in, identifying column index out. -/
def find_client_column (headers : List String) : Nat :=
  find_client_column_from 0 headers


/-- A resolved row: header name to cell value, in header order
(a Python dict with string keys, here an insertion-ordered list of pairs). -/
abbrev Record := List (String × String)

/-- The record-building loop of `GoogleSheetsManager.get_client_data`
(bot_telegram_polling.py:557-560 and 617-619):
`for i, hdr in enumerate(self.headers[:4]): client_data[hdr] =
row[i].strip() if i < len(row) and row[i] is not None else ''`.
`i` is the running index into the fetched row. -/
def build_client_data_aux (row : List String) (i : Nat) : List String → Record
  | [] => []
  | hdr :: rest =>
    (hdr, if h : i < row.length then String.mk (py_strip (row.get ⟨i, h⟩).data) else "") ::
      build_client_data_aux row (i + 1) rest

/-- Builds the `client_data` mapping from the first four headers and the
fetched row. -/
def build_client_data (headers row : List String) : Record :=
  build_client_data_aux row 0 (headers.take 4)


/-- The row cache: an insertion-ordered map from row number to record
(`self.row_cache : OrderedDict`), front = least recently used. -/
abbrev Cache := List (Nat × Record)

/-- Read side of `row_num in self.row_cache` / `self.row_cache.pop(row_num)`:
the entry stored under `k`, if any. -/
def cache_lookup (c : Cache) (k : Nat) : Option Record :=
  (c.find? (fun p => p.1 == k)).map Prod.snd

/-- Model of `self.row_cache.pop(row_num)`: drop the entry keyed `k`. -/
def cache_remove (c : Cache) (k : Nat) : Cache :=
  c.filter (fun p => p.1 != k)

/-- Model of `while len(self.row_cache) > self.row_cache_size:
self.row_cache.popitem(last=False)` (bot_telegram_polling.py:566-567):
evict from the front (least recently used) until within capacity. -/
def cache_evict (cap : Nat) : Cache → Cache
  | [] => []
  | x :: rest => if cap < (x :: rest).length then cache_evict cap rest else x :: rest

/-- Python `str.split(',')` on a list of characters: split at every
comma; the empty string yields `[[]]`. -/
def split_commas : List Char → List (List Char)
  | [] => [[]]
  | c :: rest =>
    match split_commas rest with
    | [] => [[]]
    | cur :: more => if c = ',' then [] :: cur :: more else (c :: cur) :: more

/-- Model of `TelegramBot._is_authorized_user` (bot_telegram_polling.py:832-834):
`authorized_users = os.getenv('AUTHORIZED_USERS', '').split(',')`;
`return str(user_id) in authorized_users if authorized_users != [''] else
True`.  `env` is the value of `AUTHORIZED_USERS` (`""` when unset). -/
def is_authorized_user (env : String) (user_id : Int) : Bool :=
  let authorized_users := (split_commas env.data).map String.mk
  if authorized_users ≠ [""] then authorized_users.contains (toString user_id)
  else true


/-- The lightweight index `self.index_phone_to_row : Dict[str, int]`:
an insertion-ordered map from normalized key to row number. -/
abbrev Index := List (String × Nat)

/-- Python dict assignment `index_map[normalized] = i`: overwrite in place
(keeping the key's position) or append. -/
def dict_insert : Index → String → Nat → Index
  | [], k, v => [(k, v)]
  | (k', v') :: rest, k, v =>
    if k' = k then (k', v) :: rest else (k', v') :: dict_insert rest k v

/-- Python `dict.get(key)`. -/
def dict_get (m : Index) (k : String) : Option Nat :=
  (m.find? (fun p => p.1 == k)).map Prod.snd

/-- The index-building loop of `GoogleSheetsManager.load_index`
(bot_telegram_polling.py:487-494): `for i, row in enumerate(phones,
start=2): raw_phone = row[0] if row and len(row) > 0 else '';
normalized = self._normalize_phone(raw_phone); if normalized:
index_map[normalized] = i`. -/
def build_index_aux (i : Nat) (m : Index) : List (List String) → Index
  | [] => m
  | row :: rest =>
    let raw_phone := row.headD ""
    let normalized := normalize_phone raw_phone
    build_index_aux (i + 1) (if normalized = "" then m else dict_insert m normalized i) rest

/-- Builds the lightweight index from the identifying column's cells
(which start at sheet row 2). -/
def build_index (phones : List (List String)) : Index :=
  build_index_aux 2 [] phones

/-- One remote read issued to the Google Sheets API. -/
inductive RemoteCall where
  | readHeader
  | readColumn
  | readRow (n : Nat)
deriving DecidableEq, Repr

/-- The remote data source as `load_index`/`get_client_data` see it:
the header row, the identifying column's cells (from sheet row 2 on,
each a possibly-empty list of cells), whether the column read raises,
and the single-row fetch (`none` models a raised transient error;
`some values` is the API's `values` list).  The on-disk index snapshot
of `load_index` is modelled as absent (a cold start). -/
structure Remote where
  headerRow : List String
  phoneColumn : List (List String)
  columnReadFails : Bool
  fetchRow : Nat → Option (List (List String))

/-- The mutable state of `GoogleSheetsManager`: discovered headers, the
lightweight index, the row LRU cache and its configured capacity
(`self.row_cache_size`). -/
structure SheetsState where
  headers : List String
  index : Index
  row_cache : Cache
  row_cache_size : Nat
deriving DecidableEq

/-- Model of `GoogleSheetsManager.load_index` (bot_telegram_polling.py:430-509):
read the header row; if empty, give up; read the identifying column
(a failure is caught and leaves the index unchanged); otherwise rebuild
the index wholesale.  Returns the new state and the remote calls made. -/
def load_index (env : Remote) (st : SheetsState) : SheetsState × List RemoteCall :=
  if env.headerRow = [] then (st, [RemoteCall.readHeader])
  else if env.columnReadFails then (st, [RemoteCall.readHeader, RemoteCall.readColumn])
  else ({ st with index := build_index env.phoneColumn },
        [RemoteCall.readHeader, RemoteCall.readColumn])

/-- Model of `GoogleSheetsManager._ensure_index` (bot_telegram_polling.py:511-527):
a synchronous `load_index` only when the index is empty; a merely stale
index is left to the background refresher (a no-op here). -/
def ensure_index (env : Remote) (st : SheetsState) : SheetsState × List RemoteCall :=
  if st.index = [] then load_index env st else (st, [])

/-- The single-row fetch plus record build plus LRU insert shared by the
two fetch sites of `get_client_data` (bot_telegram_polling.py:547-569 and
607-627): fetch `Sheet1!A{row_num}:D{row_num}`; a raised error or an empty
`values` yields `None`; otherwise zip the first four headers against the
row, insert into the row cache and evict down to capacity. -/
def fetch_and_record (env : Remote) (st : SheetsState) (row_num : Nat) :
    Option Record × SheetsState × List RemoteCall :=
  match env.fetchRow row_num with
  | none => (none, st, [RemoteCall.readRow row_num])
  | some values =>
    if values = [] then (none, st, [RemoteCall.readRow row_num])
    else
      let row := values.headD []
      let client_data := build_client_data st.headers row
      let rc := cache_evict st.row_cache_size (st.row_cache ++ [(row_num, client_data)])
      (some client_data, { st with row_cache := rc }, [RemoteCall.readRow row_num])

/-- Python `k.endswith(suffix)`. -/
def py_endswith (s suffix : List Char) : Bool :=
  suffix.reverse.isPrefixOf s.reverse

/-- The suffix-matching loop of `get_client_data`
(bot_telegram_polling.py:577-585): iterate the index entries; for a key
ending in `normalized`, the "match length" is `len(normalized)` (a
constant), so only the first matching entry ever improves on `best`. -/
def suffix_scan (normalized : String) : Index → Option Nat → Nat → Option Nat
  | [], best, _ => best
  | (k, rn) :: rest, best, best_len =>
    if py_endswith k.data normalized.data && decide (normalized.length ≤ k.length) then
      let match_len := normalized.length
      if best_len < match_len then suffix_scan normalized rest (some rn) match_len
      else suffix_scan normalized rest best best_len
    else suffix_scan normalized rest best best_len

/-- Value `best_match_row` as computed by the suffix-matching fallback. -/
def suffix_best (normalized : String) (idx : Index) : Option Nat :=
  suffix_scan normalized idx none 0

/-- The miss path of `get_client_data` (bot_telegram_polling.py:571-630):
the suffix scan computes `best_match_row` and assigns it to `row_num`,
but the rebuild block below unconditionally reassigns `row_num =
self.index_phone_to_row.get(normalized)` (line 602), so the suffix
result is discarded; then the exact key is retried against the rebuilt
index and, on a hit, the row is fetched. -/
def lookup_fallback (env : Remote) (st : SheetsState) (normalized : String) :
    Option Record × SheetsState × List RemoteCall :=
  let _best_match_row := suffix_best normalized st.index
  let rebuilt := load_index env st
  let st2 := rebuilt.1
  match dict_get st2.index normalized with
  | none => (none, st2, rebuilt.2)
  | some row_num =>
    if row_num ≠ 0 then
      let step := fetch_and_record env st2 row_num
      (step.1, step.2.1, rebuilt.2 ++ step.2.2)
    else (none, st2, rebuilt.2)

/-- Model of `GoogleSheetsManager.get_client_data` (bot_telegram_polling.py:529-633):
ensure the index (synchronous build when empty), normalize the input
(empty key returns `None`), look the key up; on a hit serve from the row
cache (refreshing recency) or fetch the single row; on a miss run the
suffix-scan-then-rebuild fallback.  Raised fetch errors are caught and
yield `None`.  Returns the result, the new state and the remote calls. -/
def get_client_data (env : Remote) (st : SheetsState) (client_number : String) :
    Option Record × SheetsState × List RemoteCall :=
  let ensured := ensure_index env st
  let st1 := ensured.1
  let normalized := normalize_phone client_number
  if normalized = "" then (none, st1, ensured.2)
  else
    match dict_get st1.index normalized with
    | some row_num =>
      if row_num ≠ 0 then
        match cache_lookup st1.row_cache row_num with
        | some entry =>
          (some entry,
           { st1 with row_cache := cache_remove st1.row_cache row_num ++ [(row_num, entry)] },
           ensured.2)
        | none =>
          let step := fetch_and_record env st1 row_num
          (step.1, step.2.1, ensured.2 ++ step.2.2)
      else
        let fb := lookup_fallback env st1 normalized
        (fb.1, fb.2.1, ensured.2 ++ fb.2.2)
    | none =>
      let fb := lookup_fallback env st1 normalized
      (fb.1, fb.2.1, ensured.2 ++ fb.2.2)

/-- A Telegram message entity (type, character offset, character length). -/
structure MsgEntity where
  type : String
  offset : Nat
  length : Nat
deriving DecidableEq

/-- An inbound message as `_addressed_and_processed_text` sees it:
text, caption, entity lists, and the author id of the replied-to message
(when the message is a reply). -/
structure Msg where
  text : Option String
  caption : Option String
  entities : List MsgEntity
  caption_entities : List MsgEntity
  reply_from_id : Option Int
deriving DecidableEq

/-- The cached `self.bot_info` (username and id of the bot). -/
structure BotInfo where
  username : String
  id : Int
deriving DecidableEq

/-- The `telegram.Chat.type` values relevant to the addressing gate. -/
inductive ChatType where
  | privateChat
  | group
  | supergroup
  | channel
deriving DecidableEq

/-- Python `(a or b or "")` on optional strings: the empty string is
falsy, so an empty `a` falls through to `b`. -/
def py_str_or (a b : Option String) : String :=
  match a with
  | some s => if s = "" then (match b with | some t => t | none => "") else s
  | none => match b with | some t => t | none => ""

/-- The entity loop of `TelegramBot._is_mentioned_in_message`
(bot_telegram_polling.py:771-780): some entity of type `"mention"` whose
referenced span, lower-cased, equals `"@" + bot_username` (the username
already lower-cased). -/
def entity_mention (botUser : String) (ents : List MsgEntity) (text : String) : Bool :=
  ents.any fun ent =>
    ent.type == "mention" &&
      py_lower ((text.data.drop ent.offset).take ent.length) == '@' :: py_lower botUser.data

/-- Model of `TelegramBot._is_mentioned_in_message` (bot_telegram_polling.py:755-784):
no bot username means no mention; otherwise check `entities` against the
text and `caption_entities` against the caption, then fall back to a
case-insensitive substring search of `"@username"` in the raw text. -/
def is_mentioned_in_message (bot : BotInfo) (m : Msg) : Bool :=
  if bot.username = "" then false
  else
    ((!m.entities.isEmpty) && entity_mention bot.username m.entities (m.text.getD ""))
    || ((!m.caption_entities.isEmpty) &&
          entity_mention bot.username m.caption_entities (m.caption.getD ""))
    || is_substring ('@' :: py_lower bot.username.data) (py_lower (py_str_or m.text m.caption).data)

/-- Model of `re.sub(f"@{re.escape(username)}", "", processed, flags=re.IGNORECASE)`
(bot_telegram_polling.py:817): remove every case-insensitive occurrence of
the literal pattern, scanning left to right. -/
def remove_ci_aux (pat : List Char) : List Char → List Char
  | [] => []
  | c :: rest =>
    if !pat.isEmpty && (py_lower pat).isPrefixOf (py_lower (c :: rest)) then
      remove_ci_aux pat (rest.drop (pat.length - 1))
    else c :: remove_ci_aux pat rest
termination_by l => l.length
decreasing_by
  · simp only [List.length_drop, List.length_cons]
    omega
  · simp only [List.length_cons]
    omega

/-- Model of `TelegramBot._addressed_and_processed_text` (bot_telegram_polling.py:795-830):
private chats are always addressed with the stripped text; group and
supergroup chats are addressed on a mention (with the mention removed
from the text) or on a reply to a message authored by the bot; anything
else is unaddressed with empty residual text. -/
def addressed_and_processed_text (bot : BotInfo) (chat : ChatType) (m : Msg) : Bool × String :=
  match chat with
  | ChatType.privateChat => (true, String.mk (py_strip (py_str_or m.text m.caption).data))
  | ChatType.group | ChatType.supergroup =>
    if is_mentioned_in_message bot m then
      let processed := py_str_or m.text m.caption
      let processed :=
        if bot.username = "" then processed
        else String.mk (remove_ci_aux ('@' :: bot.username.data) processed.data)
      (true, String.mk (py_strip processed.data))
    else if m.reply_from_id = some bot.id then
      (true, String.mk (py_strip (py_str_or m.text m.caption).data))
    else (false, "")
  | ChatType.channel => (false, "")

/-- The addressing gate of `TelegramBot.handle_message`
(bot_telegram_polling.py:1037-1047): an unaddressed message is dropped
(`return`) before deduplication, extraction, lookup and reply; an
addressed one proceeds with its processed text. -/
def handle_message_gate (bot : BotInfo) (chat : ChatType) (m : Msg) : Option String :=
  let d := addressed_and_processed_text bot chat m
  if d.1 then some d.2 else none

/-! Concrete environments and states used to evaluate the lookup engine. -/

/-- A sheet storing one client whose number carries a country-code prefix;
the single-row fetch always succeeds. -/
def envPrefix : Remote :=
  { headerRow := ["Client Number", "Nombre"]
    phoneColumn := [["525551234567"]]
    columnReadFails := false
    fetchRow := fun _ => some [["525551234567", "Ana"]] }

/-- The manager state after discovery and a first index build over
`envPrefix`. -/
def stPrefix : SheetsState :=
  { headers := ["Client Number", "Nombre"]
    index := build_index [["525551234567"]]
    row_cache := []
    row_cache_size := 200 }

/-- A sheet storing client `123` whose single-row fetch always raises a
transient error. -/
def envFetchFail : Remote :=
  { headerRow := ["Client Number"]
    phoneColumn := [["123"]]
    columnReadFails := false
    fetchRow := fun _ => none }

/-- The manager state with client `123` indexed at row 2 and an empty
row cache. -/
def stFetchFail : SheetsState :=
  { headers := ["Client Number"]
    index := [("123", 2)]
    row_cache := []
    row_cache_size := 200 }

/-- The manager state with an empty index (cold start before any build). -/
def stColdStart : SheetsState :=
  { headers := ["Client Number"]
    index := []
    row_cache := []
    row_cache_size := 200 }

/-- A bot identity for the addressing gate. -/
def botMyBot : BotInfo := { username := "mybot", id := 999 }

/-- A group message whose raw text contains `@mybot` but which carries no
mention entity and is not a reply. -/
def msgBareAt : Msg :=
  { text := some "ping @mybot 123", caption := none, entities := [], caption_entities := []
    reply_from_id := none }

/-- A group message with no mention of the bot in any form and no reply. -/
def msgPlain : Msg :=
  { text := some "hola 123", caption := none, entities := [], caption_entities := []
    reply_from_id := none }

/-! Theorems. -/

lemma normalize_phone_eq (raw : String) :
    normalize_phone raw
      = String.mk ((raw.data.filter Char.isDigit).dropWhile (fun c => c == '0')) := by
  unfold normalize_phone
  by_cases h : raw = ""
  · subst h; rfl
  · rw [if_neg h]
    by_cases h2 : raw.data.filter Char.isDigit = []
    · simp [h2]
    · simp [h2]

/-- C6: `normalize` is a total function returning exactly the digit
characters of its input in order with leading zeros stripped, and the
empty string when no digits remain (no digits at all, or only zeros).
Termination and absence of exceptions hold by construction: the model is
a Lean function `String → String`. -/
theorem normalize_phone_spec (raw : String) :
    normalize_phone raw
      = String.mk ((raw.data.filter Char.isDigit).dropWhile (fun c => c == '0'))
  ∧ ((raw.data.filter Char.isDigit).all (fun c => c == '0') = true →
      normalize_phone raw = "") := by
  refine ⟨normalize_phone_eq raw, fun h => ?_⟩
  rw [normalize_phone_eq raw]
  have hnil : (raw.data.filter Char.isDigit).dropWhile (fun c => c == '0') = [] := by
    rw [List.dropWhile_eq_nil_iff]
    intro x hx
    exact List.all_eq_true.mp h x hx
  rw [hnil]

/-- Witness for C6 at a concrete all-zeros input. -/
theorem normalize_phone_spec_witness : normalize_phone "a0b00" = "" :=
  (normalize_phone_spec "a0b00").2 (by decide)

lemma find_client_column_from_spec (hs : List String) :
    ∀ i, (∃ j, j < hs.length ∧ find_client_column_from i hs = i + j ∧
            headerMatches (hs.getD j "") = true ∧
            ∀ k, k < j → headerMatches (hs.getD k "") = false)
       ∨ ((∀ j, j < hs.length → headerMatches (hs.getD j "") = false) ∧
          find_client_column_from i hs = 0) := by
  induction hs with
  | nil =>
    intro i
    exact Or.inr ⟨fun j hj => absurd hj (Nat.not_lt_zero j), rfl⟩
  | cons h rest ih =>
    intro i
    by_cases hm : headerMatches h = true
    · left
      refine ⟨0, ?_, ?_, ?_, ?_⟩
      · exact Nat.succ_pos _
      · simp [find_client_column_from, hm]
      · simpa using hm
      · exact fun k hk => absurd hk (Nat.not_lt_zero k)
    · have hmf : headerMatches h = false := by simpa using hm
      rcases ih (i + 1) with ⟨j, hj, heq, hmj, hprev⟩ | ⟨hall, heq⟩
      · left
        refine ⟨j + 1, ?_, ?_, ?_, ?_⟩
        · simpa using Nat.succ_lt_succ hj
        · rw [show i + (j + 1) = (i + 1) + j from by omega]
          simpa [find_client_column_from, hmf] using heq
        · simpa using hmj
        · intro k hk
          cases k with
          | zero => simpa using hmf
          | succ k' => simpa using hprev k' (by omega)
      · right
        refine ⟨?_, ?_⟩
        · intro j hj
          cases j with
          | zero => simpa using hmf
          | succ j' => simpa using hall j' (by simpa using hj)
        · simpa [find_client_column_from, hmf] using heq

/-- C7: schema discovery returns the first (lowest-index) header whose
lower-cased, trimmed text contains one of the keywords
`client`, `number`, `id`, `code` as a substring; when no header matches,
it returns column 0. -/
theorem find_client_column_spec (headers : List String) (hne : headers ≠ []) :
    (∃ j, j < headers.length ∧ find_client_column headers = j ∧
       headerMatches (headers.getD j "") = true ∧
       ∀ k, k < j → headerMatches (headers.getD k "") = false)
  ∨ ((∀ j, j < headers.length → headerMatches (headers.getD j "") = false) ∧
     find_client_column headers = 0) := by
  have := find_client_column_from_spec headers 0
  simpa [find_client_column] using this

/-- Witness for C7 at the spec's example header row (column 1 matches). -/
theorem find_client_column_spec_witness :
    (∃ j, j < (["Nombre", "Client Phone Number", "Correo"] : List String).length ∧
       find_client_column ["Nombre", "Client Phone Number", "Correo"] = j ∧
       headerMatches ((["Nombre", "Client Phone Number", "Correo"] : List String).getD j "")
         = true ∧
       ∀ k, k < j →
         headerMatches ((["Nombre", "Client Phone Number", "Correo"] : List String).getD k "")
           = false)
  ∨ ((∀ j, j < (["Nombre", "Client Phone Number", "Correo"] : List String).length →
        headerMatches ((["Nombre", "Client Phone Number", "Correo"] : List String).getD j "")
          = false) ∧
     find_client_column ["Nombre", "Client Phone Number", "Correo"] = 0) :=
  find_client_column_spec ["Nombre", "Client Phone Number", "Correo"] (by decide)

lemma split_commas_ne_nil (l : List Char) : split_commas l ≠ [] := by
  cases l with
  | nil => simp [split_commas]
  | cons c rest =>
    cases h : split_commas rest with
    | nil => simp [split_commas, h]
    | cons cur more => by_cases hc : c = ',' <;> simp [split_commas, h, hc]

lemma split_commas_map_ne (l : List Char) (hl : l ≠ []) :
    (split_commas l).map String.mk ≠ [""] := by
  cases l with
  | nil => exact absurd rfl hl
  | cons c rest =>
    cases h : split_commas rest with
    | nil => exact absurd h (split_commas_ne_nil rest)
    | cons cur more =>
      by_cases hc : c = ','
      · simp [split_commas, h, hc]
      · simp only [split_commas, h, if_neg hc, List.map_cons]
        intro heq
        have hhead : String.mk (c :: cur) = "" := (List.cons_eq_cons.mp heq).1
        have : (String.mk (c :: cur)).data = ("" : String).data := congrArg String.data hhead
        simp at this

/-- C10: with `AUTHORIZED_USERS` unset or empty every user id is
authorized; otherwise a user is authorized exactly when the decimal
string of their id is an element of the comma-separated list. -/
theorem is_authorized_user_spec (env : String) (uid : Int) :
    (env = "" → is_authorized_user env uid = true)
  ∧ (env ≠ "" → is_authorized_user env uid
       = ((split_commas env.data).map String.mk).contains (toString uid)) := by
  constructor
  · intro h; subst h; rfl
  · intro h
    have hd : env.data ≠ [] := by
      intro hdata
      apply h
      cases env with
      | mk data =>
        simp only at hdata
        subst hdata
        rfl
    show (if ((split_commas env.data).map String.mk) ≠ [""] then
            ((split_commas env.data).map String.mk).contains (toString uid)
          else true)
      = ((split_commas env.data).map String.mk).contains (toString uid)
    rw [if_pos (split_commas_map_ne env.data hd)]

/-- Witness for C10: empty configuration authorizes anyone; a non-empty
configuration is exact membership. -/
theorem is_authorized_user_spec_witness :
    is_authorized_user "" 7 = true
  ∧ is_authorized_user "11,22" 22
      = ((split_commas ("11,22" : String).data).map String.mk).contains (toString (22 : Int)) :=
  ⟨(is_authorized_user_spec "" 7).1 rfl, (is_authorized_user_spec "11,22" 22).2 (by decide)⟩

lemma digitRunsAux_mem (s : List Char) :
    ∀ acc, acc.all Char.isDigit = true →
      ∀ r ∈ digitRunsAux acc s, r ≠ [] ∧ r.all Char.isDigit = true := by
  induction s with
  | nil =>
    intro acc hacc r hr
    unfold digitRunsAux at hr
    by_cases h : acc = []
    · simp [h] at hr
    · rw [if_neg h] at hr
      rw [List.mem_singleton] at hr
      subst hr
      refine ⟨by simpa using h, ?_⟩
      rw [List.all_eq_true] at hacc ⊢
      intro x hx
      exact hacc x (List.mem_reverse.mp hx)
  | cons c rest ih =>
    intro acc hacc r hr
    unfold digitRunsAux at hr
    by_cases hc : c.isDigit = true
    · rw [if_pos hc] at hr
      refine ih (c :: acc) ?_ r hr
      rw [List.all_eq_true] at hacc ⊢
      intro x hx
      rcases List.mem_cons.mp hx with h | h
      · subst h; exact hc
      · exact hacc x h
    · rw [if_neg hc] at hr
      by_cases ha : acc = []
      · rw [if_pos ha] at hr
        exact ih [] rfl r hr
      · rw [if_neg ha] at hr
        rcases List.mem_cons.mp hr with h | h
        · subst h
          refine ⟨by simpa using ha, ?_⟩
          rw [List.all_eq_true] at hacc ⊢
          intro x hx
          exact hacc x (List.mem_reverse.mp hx)
        · exact ih [] rfl r h

lemma digitRuns_mem (s : List Char) (r : List Char) (hr : r ∈ digitRuns s) :
    r ≠ [] ∧ r.all Char.isDigit = true :=
  digitRunsAux_mem s [] rfl r hr

lemma normalize_phone_mk_digits (m : List Char) (hne : m ≠ [])
    (hall : m.all Char.isDigit = true) :
    normalize_phone (String.mk m) = String.mk (m.dropWhile (fun c => c == '0')) := by
  rw [normalize_phone_eq]
  have hd : (String.mk m).data = m := rfl
  rw [hd]
  have hf : m.filter Char.isDigit = m :=
    List.filter_eq_self.mpr (fun a ha => List.all_eq_true.mp hall a ha)
  rw [hf]

/-- C1 (amended): the search key `handle_message` passes to the lookup is
the normalization not of the whole residual text but of the *first*
maximal run of consecutive digits whose length is at least the configured
minimum (`MIN_CLIENT_NUMBER_LENGTH`, default 3): that run with its leading
zeros stripped, or the empty string when no run qualifies. -/
theorem search_key_spec (minDigits : Nat) (text : String) :
    search_key minDigits text =
      match (digitRuns text.data).find? (fun m => decide (minDigits ≤ m.length)) with
      | some m => String.mk (m.dropWhile (fun c => c == '0'))
      | none => "" := by
  unfold search_key extract_client_number
  by_cases ht : text = ""
  · subst ht; rfl
  · rw [if_neg ht]
    cases hf : (digitRuns text.data).find? (fun m => decide (minDigits ≤ m.length)) with
    | none => rfl
    | some m =>
      have hmem := List.mem_of_find?_eq_some hf
      have hd := digitRuns_mem text.data m hmem
      exact normalize_phone_mk_digits m hd.1 hd.2

/-- Counterexample to C1 as stated: for the spec's own example residual
text the key passed to the lookup is `"555"` (the first digit run of
length ≥ 3), not `normalize` of the whole residual text, which would be
`"5551234567"`. -/
theorem search_key_counterexample :
    search_key 3 "Hola, busco el 555-1234567 porfa" = "555"
  ∧ normalize_phone "Hola, busco el 555-1234567 porfa" = "5551234567"
  ∧ search_key 3 "Hola, busco el 555-1234567 porfa"
      ≠ normalize_phone "Hola, busco el 555-1234567 porfa" := by
  decide

lemma build_client_data_aux_map_fst (row : List String) :
    ∀ hs i, (build_client_data_aux row i hs).map Prod.fst = hs := by
  intro hs
  induction hs with
  | nil => intro i; rfl
  | cons hdr rest ih =>
    intro i
    simp [build_client_data_aux, ih (i + 1)]

lemma build_client_data_aux_getD (row : List String) :
    ∀ hs i j, j < hs.length → row.length ≤ i + j →
      (build_client_data_aux row i hs).getD j ("", "") = (hs.getD j "", "") := by
  intro hs
  induction hs with
  | nil => intro i j hj _; exact absurd hj (Nat.not_lt_zero j)
  | cons hdr rest ih =>
    intro i j hj hrow
    cases j with
    | zero =>
      simp only [build_client_data_aux, List.getD_cons_zero]
      rw [dif_neg (by omega)]
    | succ j' =>
      simp only [build_client_data_aux, List.getD_cons_succ]
      exact ih (i + 1) j' (by simpa using hj) (by omega)

lemma build_client_data_aux_getD_lt (row : List String) :
    ∀ hs i j, j < hs.length → i + j < row.length →
      (build_client_data_aux row i hs).getD j ("", "")
        = (hs.getD j "", String.mk (py_strip (row.getD (i + j) "").data)) := by
  intro hs
  induction hs with
  | nil => intro i j hj _; exact absurd hj (Nat.not_lt_zero j)
  | cons hdr rest ih =>
    intro i j hj hrow
    cases j with
    | zero =>
      simp only [build_client_data_aux, List.getD_cons_zero]
      have hi : i < row.length := by omega
      rw [dif_pos hi]
      have : row.get ⟨i, hi⟩ = row.getD (i + 0) "" := by
        simp only [List.get_eq_getElem, Nat.add_zero]
        rw [List.getD_eq_getElem row "" hi]
      rw [this]
    | succ j' =>
      simp only [build_client_data_aux, List.getD_cons_succ]
      rw [show i + (j' + 1) = (i + 1) + j' from by omega]
      exact ih (i + 1) j' (by simpa using hj) (by omega)

lemma build_client_data_aux_append (row extra : List String) :
    ∀ hs i, i + hs.length ≤ row.length →
      build_client_data_aux (row ++ extra) i hs = build_client_data_aux row i hs := by
  intro hs
  induction hs with
  | nil => intro i _; rfl
  | cons hdr rest ih =>
    intro i hle
    have hi : i < row.length := by simp at hle; omega
    have hi' : i < (row ++ extra).length := by simp; omega
    unfold build_client_data_aux
    rw [dif_pos hi', dif_pos hi, ih (i + 1) (by simp at hle ⊢; omega)]
    have : (row ++ extra).get ⟨i, hi'⟩ = row.get ⟨i, hi⟩ := by
      simp only [List.get_eq_getElem]
      exact List.getElem_append_left hi
    rw [this]

/-- C8 (amended): the record maps each of the first four headers, in
order, to the trimmed cell at its index — a header whose cell is missing
is still *present*, with the empty string as value (it is not omitted);
fetched values beyond the header count are ignored. -/
theorem build_client_data_spec (headers row : List String) :
    ((build_client_data headers row).map Prod.fst = headers.take 4)
  ∧ (∀ j, j < (headers.take 4).length → j < row.length →
       (build_client_data headers row).getD j ("", "")
         = ((headers.take 4).getD j "", String.mk (py_strip (row.getD j "").data)))
  ∧ (∀ j, j < (headers.take 4).length → row.length ≤ j →
       (build_client_data headers row).getD j ("", "")
         = ((headers.take 4).getD j "", ""))
  ∧ (∀ extra, (headers.take 4).length ≤ row.length →
       build_client_data headers (row ++ extra) = build_client_data headers row) := by
  refine ⟨build_client_data_aux_map_fst row (headers.take 4) 0, ?_, ?_, ?_⟩
  · intro j hj hrow
    have := build_client_data_aux_getD_lt row (headers.take 4) 0 j hj (by omega)
    simpa using this
  · intro j hj hrow
    exact build_client_data_aux_getD row (headers.take 4) 0 j hj (by omega)
  · intro extra hle
    exact build_client_data_aux_append row extra (headers.take 4) 0 (by omega)

/-- Counterexample to C8 as stated: with headers `["A", "B"]` and fetched
row `["x"]` the header `B` has no corresponding cell, yet it is present
in the returned mapping (with value `""`) rather than absent. -/
theorem build_client_data_counterexample :
    build_client_data ["A", "B"] ["x"] = [("A", "x"), ("B", "")]
  ∧ ((build_client_data ["A", "B"] ["x"]).map Prod.fst).contains "B" = true := by
  decide

/-- Witness for C8 at the counterexample's input: header `A` maps to its
trimmed cell, header `B` (cell missing) maps to the empty string. -/
theorem build_client_data_spec_witness :
    ((build_client_data ["A", "B"] ["x"]).getD 0 ("", "")
      = (((["A", "B"] : List String).take 4).getD 0 "",
         String.mk (py_strip ((["x"] : List String).getD 0 "").data)))
  ∧ ((build_client_data ["A", "B"] ["x"]).getD 1 ("", "")
      = (((["A", "B"] : List String).take 4).getD 1 "", "")) :=
  ⟨(build_client_data_spec ["A", "B"] ["x"]).2.1 0 (by decide) (by decide),
   (build_client_data_spec ["A", "B"] ["x"]).2.2.1 1 (by decide) (by decide)⟩

/-- C2 (code bug): on an index miss the suffix scan does find the unique
best suffix match (`"525551234567"` at row 2 for searched key
`"5551234567"`), but its locator is never used: `row_num` is overwritten
by the rebuild retry (line 602), the rebuilt index still lacks the exact
key, no row fetch is issued at all (the trace holds only the rebuild's
header and column reads) and the lookup returns `None`. -/
theorem suffix_fallback_dead_code :
    suffix_best "5551234567" stPrefix.index = some 2
  ∧ (get_client_data envPrefix stPrefix "5551234567").1 = none
  ∧ (get_client_data envPrefix stPrefix "5551234567").2.2
      = [RemoteCall.readHeader, RemoteCall.readColumn] := by
  decide

/-- C3 (amended): when the single-row fetch raises, `get_client_data`
catches the exception and returns `None` — the very same outcome as a
key with no match; the `Optional[Dict]` interface carries no distinct
resolution-error value. -/
theorem get_client_data_fetch_fail (env : Remote) (st : SheetsState) (key : String)
    (rn : Nat)
    (hidx : st.index ≠ [])
    (hget : dict_get st.index (normalize_phone key) = some rn)
    (hrn : rn ≠ 0)
    (hcache : cache_lookup st.row_cache rn = none)
    (hfail : env.fetchRow rn = none) :
    (get_client_data env st key).1 = none := by
  unfold get_client_data
  have hens : ensure_index env st = (st, ([] : List RemoteCall)) := by
    unfold ensure_index
    rw [if_neg hidx]
  rw [hens]
  dsimp only
  by_cases hn : normalize_phone key = ""
  · rw [if_pos hn]
  · rw [if_neg hn, hget]
    dsimp only
    rw [if_pos hrn, hcache]
    dsimp only
    show (fetch_and_record env st rn).1 = none
    unfold fetch_and_record
    rw [hfail]

/-- Counterexample to C3 as stated: a lookup whose row fetch fails and a
lookup for a key that simply has no match produce the *same* outcome
(`None`); no distinct resolution-error outcome exists. -/
theorem fetch_fail_counterexample :
    (get_client_data envFetchFail stFetchFail "123").1 = none
  ∧ (get_client_data envFetchFail stFetchFail "999").1 = none
  ∧ (get_client_data envFetchFail stFetchFail "123").1
      = (get_client_data envFetchFail stFetchFail "999").1 := by
  decide

/-- Witness for C3's amended theorem at the concrete failing fetch. -/
theorem get_client_data_fetch_fail_witness :
    (get_client_data envFetchFail stFetchFail "123").1 = none :=
  get_client_data_fetch_fail envFetchFail stFetchFail "123" 2 (by decide) (by decide)
    (by decide) (by decide) rfl

lemma load_index_no_readRow (env : Remote) (st : SheetsState) (n : Nat) :
    RemoteCall.readRow n ∉ (load_index env st).2 := by
  unfold load_index
  split_ifs <;> simp

/-- C4 (amended): an input whose normalized key is empty returns `None`
with no row fetch and no rebuild retry; however `_ensure_index` runs
*before* the empty-key check, so when the in-memory index is empty a
synchronous index build (header and column reads) does contact the data
source; with a non-empty index no remote call is made. -/
theorem get_client_data_empty_key (env : Remote) (st : SheetsState) (key : String)
    (hkey : normalize_phone key = "") :
    (get_client_data env st key).1 = none
  ∧ (get_client_data env st key).2.2
      = (if st.index = [] then (load_index env st).2 else [])
  ∧ (∀ n, RemoteCall.readRow n ∉ (get_client_data env st key).2.2)
  ∧ (st.index ≠ [] → (get_client_data env st key).2.2 = []) := by
  have hmain : get_client_data env st key
      = (none, (ensure_index env st).1, (ensure_index env st).2) := by
    unfold get_client_data
    dsimp only
    rw [if_pos hkey]
  have htrace : (ensure_index env st).2
      = (if st.index = [] then (load_index env st).2 else []) := by
    unfold ensure_index
    split_ifs <;> rfl
  refine ⟨by rw [hmain], ?_, ?_, ?_⟩
  · rw [hmain]
    exact htrace
  · intro n
    rw [hmain]
    show RemoteCall.readRow n ∉ (ensure_index env st).2
    rw [htrace]
    split_ifs
    · exact load_index_no_readRow env st n
    · simp
  · intro hne
    rw [hmain]
    show (ensure_index env st).2 = []
    rw [htrace, if_neg hne]

/-- Counterexample to C4 as stated: with an empty in-memory index, the
digit-free input `"hola"` still triggers a synchronous index build
(header and column reads) before the empty-key short-circuit. -/
theorem empty_key_counterexample :
    normalize_phone "hola" = ""
  ∧ (get_client_data envPrefix stColdStart "hola").1 = none
  ∧ (get_client_data envPrefix stColdStart "hola").2.2
      = [RemoteCall.readHeader, RemoteCall.readColumn] := by
  decide

/-- Witness for C4's amended theorem: with a non-empty index, an empty
key makes no remote call at all. -/
theorem get_client_data_empty_key_witness :
    (get_client_data envFetchFail stFetchFail "hola").1 = none
  ∧ (get_client_data envFetchFail stFetchFail "hola").2.2 = [] :=
  ⟨(get_client_data_empty_key envFetchFail stFetchFail "hola" (by decide)).1,
   (get_client_data_empty_key envFetchFail stFetchFail "hola" (by decide)).2.2.2
     (by decide)⟩

/-- C5 (amended): in a private chat every message is addressed; in a
group or supergroup a message with no mention entity matching the bot's
handle, whose raw text does not even contain `"@username"` as a
case-insensitive substring (the code's fallback check), and which is not
a reply to a message authored by the bot, is never addressed: the gate
yields `(false, "")` and `handle_message` drops the message with no
further processing and no reply. -/
theorem addressing_gate_spec (bot : BotInfo) (m : Msg) (ct : ChatType) :
    ((addressed_and_processed_text bot ChatType.privateChat m).1 = true)
  ∧ ((ct = ChatType.group ∨ ct = ChatType.supergroup) →
     (∀ e ∈ m.entities, ¬(e.type = "mention" ∧
        py_lower (((m.text.getD "").data.drop e.offset).take e.length)
          = '@' :: py_lower bot.username.data)) →
     (∀ e ∈ m.caption_entities, ¬(e.type = "mention" ∧
        py_lower (((m.caption.getD "").data.drop e.offset).take e.length)
          = '@' :: py_lower bot.username.data)) →
     is_substring ('@' :: py_lower bot.username.data)
        (py_lower (py_str_or m.text m.caption).data) = false →
     m.reply_from_id ≠ some bot.id →
     addressed_and_processed_text bot ct m = (false, "")
       ∧ handle_message_gate bot ct m = none) := by
  refine ⟨rfl, ?_⟩
  intro hct h1 h2 hsub hreply
  have hment : is_mentioned_in_message bot m = false := by
    unfold is_mentioned_in_message
    split
    · rfl
    · have e1 : entity_mention bot.username m.entities (m.text.getD "") = false := by
        unfold entity_mention
        rw [List.any_eq_false]
        intro e he
        have := h1 e he
        simp only [Bool.and_eq_true, beq_iff_eq, not_and] at this ⊢
        intro ht hsl
        exact this ht (by simpa using hsl)
      have e2 : entity_mention bot.username m.caption_entities (m.caption.getD "")
          = false := by
        unfold entity_mention
        rw [List.any_eq_false]
        intro e he
        have := h2 e he
        simp only [Bool.and_eq_true, beq_iff_eq, not_and] at this ⊢
        intro ht hsl
        exact this ht (by simpa using hsl)
      rw [e1, e2, hsub]
      simp
  have haddr : ∀ ct', (ct' = ChatType.group ∨ ct' = ChatType.supergroup) →
      addressed_and_processed_text bot ct' m = (false, "") := by
    intro ct' hct'
    rcases hct' with h | h <;> subst h <;>
      simp [addressed_and_processed_text, hment, hreply]
  refine ⟨haddr ct hct, ?_⟩
  unfold handle_message_gate
  rw [haddr ct hct]
  rfl

/-- Counterexample to C5 as stated: a group message carrying *no* mention
entity and *not* replying to the bot is nonetheless addressed, because
its raw text contains `@mybot` and `_is_mentioned_in_message` falls back
to a substring search. -/
theorem addressing_gate_counterexample :
    msgBareAt.entities = []
  ∧ msgBareAt.caption_entities = []
  ∧ msgBareAt.reply_from_id = none
  ∧ (addressed_and_processed_text botMyBot ChatType.group msgBareAt).1 = true := by
  decide

/-- Witness for C5's amended theorem on a plain group message. -/
theorem addressing_gate_spec_witness :
    addressed_and_processed_text botMyBot ChatType.group msgPlain = (false, "")
  ∧ handle_message_gate botMyBot ChatType.group msgPlain = none :=
  (addressing_gate_spec botMyBot msgPlain ChatType.group).2 (Or.inl rfl)
    (by intro e he; simp [msgPlain] at he)
    (by intro e he; simp [msgPlain] at he)
    (by decide) (by decide)

end Bot
